import Mathlib

/-!
# Verification of the workplace-risk scoring pipeline

Shallow embedding of the repository's scoring engines over the rationals:

* `burnout_engine.py` — `BurnoutEngine` (four sub-scores and the weighted
  burnout total);
* `phishing_risk.py` — `PhishingRiskEngine` (cognitive load, awareness,
  vulnerability index, attack-success probability);
* `dataset_loader.py` — `DatasetLoader.find_similar_cases` (normalized
  relative-difference similarity and the stable top-N search);
* `llm_explainer.py` — the three-tier opening-sentence selection of the
  deterministic narrative template.

Python floats are modelled as `ℚ` with exact arithmetic; Python's
`round(x, 2)` is modelled as rounding to two decimal places (`round2`);
dictionary fields that may be absent are modelled as `Option` fields with
the source's `dict.get` defaults.
-/

/-- Two-decimal rounding, modelling Python's `round(x, 2)` on the values
the engines emit (all claim-relevant values are exact at two decimals, so
the tie-breaking convention is immaterial). -/
def round2 (q : ℚ) : ℚ := ((round (q * 100) : ℤ) : ℚ) / 100

/-- The metrics dictionary (`employee_data` in the source): every field may
be absent, in which case the engines substitute their `dict.get` defaults. -/
structure EmployeeData where
  work_hours_per_week : Option ℚ
  sleep_hours_per_day : Option ℚ
  meetings_per_week : Option ℚ
  emails_per_day : Option ℚ
  deadline_pressure : Option ℚ
  task_complexity : Option ℚ
  team_support : Option ℚ
  work_life_balance : Option ℚ
  stress_level : Option String
deriving DecidableEq

/-- `BurnoutEngine.calculate_emotional_exhaustion` (burnout_engine.py,
lines 18–40). -/
def calculate_emotional_exhaustion (work_hours sleep_hours stress_level_score : ℚ) : ℚ :=
  let work_factor := min 100 (max 0 ((work_hours - 40) * 5))
  let sleep_factor := min 100 (max 0 ((7.5 - sleep_hours) * 15))
  let score := work_factor * 0.4 + sleep_factor * 0.3 + stress_level_score * 0.3
  min 100 (max 0 score)

/-- `BurnoutEngine.calculate_depersonalization` (burnout_engine.py,
lines 42–66). -/
def calculate_depersonalization (team_support work_life_balance meetings_per_week : ℚ) : ℚ :=
  let support_factor := (10 - team_support) * 10
  let balance_factor := (10 - work_life_balance) * 10
  let meeting_factor := max 0 (min 100 ((meetings_per_week - 10) * 3))
  let score := support_factor * 0.4 + balance_factor * 0.4 + meeting_factor * 0.2
  min 100 (max 0 score)

/-- `BurnoutEngine.calculate_personal_accomplishment` (burnout_engine.py,
lines 68–88). -/
def calculate_personal_accomplishment (task_complexity deadline_pressure : ℚ) : ℚ :=
  let complexity_factor := task_complexity * 5
  let pressure_factor := deadline_pressure * 5
  let synergy := (task_complexity * deadline_pressure) * 0.5
  let score := complexity_factor * 0.3 + pressure_factor * 0.4 + synergy * 0.3
  min 100 (max 0 score)

/-- `BurnoutEngine.calculate_work_overload` (burnout_engine.py,
lines 90–109).  Note: the source applies `max(0, ·)` to `hours_factor`
only; `email_factor` and `meeting_factor` are capped above at 100 but not
floored at 0. -/
def calculate_work_overload (work_hours emails_per_day meetings_per_week : ℚ) : ℚ :=
  let hours_factor := min 100 (max 0 ((work_hours - 40) * 3))
  let email_factor := min 100 ((emails_per_day - 50) * 0.5)
  let meeting_factor := min 100 ((meetings_per_week - 10) * 4)
  let score := hours_factor * 0.5 + email_factor * 0.25 + meeting_factor * 0.25
  min 100 (max 0 score)

/-- The burnout stage's stress map with its `.get(·, 50)` default:
`{'Low': 25, 'Medium': 50, 'High': 75, 'Critical': 100}`
(burnout_engine.py, lines 122–123). -/
def stress_map_burnout (s : String) : ℚ :=
  if s = "Low" then 25
  else if s = "Medium" then 50
  else if s = "High" then 75
  else if s = "Critical" then 100
  else 50

/-- Result of `BurnoutEngine.calculate_burnout_score`: the rounded total,
the level/color tags, and the four rounded components. -/
structure BurnoutResult where
  total_score : ℚ
  level : String
  color : String
  emotional_exhaustion : ℚ
  depersonalization : ℚ
  personal_accomplishment : ℚ
  work_overload : ℚ

/-- `BurnoutEngine.calculate_burnout_score` (burnout_engine.py,
lines 111–182), with the source's `dict.get` defaults for absent fields
and weights 0.35/0.25/0.20/0.20. -/
def calculate_burnout_score (d : EmployeeData) : BurnoutResult :=
  let stress_score := stress_map_burnout (d.stress_level.getD "Medium")
  let emotional_exhaustion := calculate_emotional_exhaustion
    (d.work_hours_per_week.getD 40) (d.sleep_hours_per_day.getD 7) stress_score
  let depersonalization := calculate_depersonalization
    (d.team_support.getD 5) (d.work_life_balance.getD 5) (d.meetings_per_week.getD 15)
  let personal_accomplishment := calculate_personal_accomplishment
    (d.task_complexity.getD 5) (d.deadline_pressure.getD 5)
  let work_overload := calculate_work_overload
    (d.work_hours_per_week.getD 40) (d.emails_per_day.getD 75) (d.meetings_per_week.getD 15)
  let total_score := emotional_exhaustion * 0.35 + depersonalization * 0.25 +
    personal_accomplishment * 0.20 + work_overload * 0.20
  let level :=
    if total_score < 30 then "Low Risk"
    else if total_score < 50 then "Moderate Risk"
    else if total_score < 70 then "High Risk"
    else "Critical Risk"
  let color :=
    if total_score < 30 then "green"
    else if total_score < 50 then "yellow"
    else if total_score < 70 then "orange"
    else "red"
  { total_score := round2 total_score
    level := level
    color := color
    emotional_exhaustion := round2 emotional_exhaustion
    depersonalization := round2 depersonalization
    personal_accomplishment := round2 personal_accomplishment
    work_overload := round2 work_overload }

/-- `PhishingRiskEngine.calculate_cognitive_load` (phishing_risk.py,
lines 18–45). -/
def calculate_cognitive_load (emails_per_day meetings_per_week task_complexity : ℚ) : ℚ :=
  let email_factor := max 0 (min 100 ((emails_per_day - 30) * 0.7))
  let meeting_factor := max 0 (min 100 ((meetings_per_week - 5) * 3))
  let complexity_factor := task_complexity * 10
  let score := email_factor * 0.4 + meeting_factor * 0.3 + complexity_factor * 0.3
  min 100 (max 0 score)

/-- `PhishingRiskEngine.estimate_awareness_level` (phishing_risk.py,
lines 47–72). -/
def estimate_awareness_level (work_hours sleep_hours work_life_balance : ℚ) : ℚ :=
  let overwork_factor := min 100 (max 0 ((work_hours - 40) * 2))
  let sleep_factor := min 100 (max 0 ((7.5 - sleep_hours) * 12))
  let balance_factor := (10 - work_life_balance) * 10
  let score := overwork_factor * 0.35 + sleep_factor * 0.35 + balance_factor * 0.30
  min 100 (max 0 score)

/-- The phishing stage's stress map with its `.get(·, 50)` default:
`{'Low': 20, 'Medium': 45, 'High': 70, 'Critical': 95}`
(phishing_risk.py, lines 87–88). -/
def stress_map_phishing (s : String) : ℚ :=
  if s = "Low" then 20
  else if s = "Medium" then 45
  else if s = "High" then 70
  else if s = "Critical" then 95
  else 50

/-- The unweighted vulnerability index (phishing_risk.py, lines 86–113):
the weighted sum of stress score, upstream burnout total (default 50 when
absent), cognitive load and awareness vulnerability, before display
rounding.  `stress_result` models `stress_result.get('stress_level',
'Medium')`; `burnout_total` models `burnout_result.get('total_score', 50)`. -/
def vulnerability_index_raw (d : EmployeeData) (stress_result : Option String)
    (burnout_total : Option ℚ) : ℚ :=
  let stress_score := stress_map_phishing (stress_result.getD "Medium")
  let burnout_score := burnout_total.getD 50
  let cognitive_load := calculate_cognitive_load
    (d.emails_per_day.getD 75) (d.meetings_per_week.getD 15) (d.task_complexity.getD 5)
  let awareness_vulnerability := estimate_awareness_level
    (d.work_hours_per_week.getD 40) (d.sleep_hours_per_day.getD 7) (d.work_life_balance.getD 5)
  stress_score * 0.25 + burnout_score * 0.30 +
    cognitive_load * 0.25 + awareness_vulnerability * 0.20

/-- The attack-success probability before conversion to a percentage
(phishing_risk.py, lines 135–137): `min(0.95, 0.15 * (1 + vi/100 * 3))`. -/
def attack_probability_raw (vi : ℚ) : ℚ := min 0.95 (0.15 * (1 + vi / 100 * 3))

/-- Result of `PhishingRiskEngine.calculate_vulnerability_index`: the
rounded index, the tags, the rounded attack-success percentage, and the
rounded `risk_factors` entries. -/
structure PhishingResult where
  vulnerability_index : ℚ
  risk_level : String
  color : String
  attack_success_probability : ℚ
  recommendation : String
  stress_contribution : ℚ
  burnout_contribution : ℚ
  cognitive_load : ℚ
  awareness_vulnerability : ℚ

/-- `PhishingRiskEngine.calculate_vulnerability_index` (phishing_risk.py,
lines 74–152). -/
def calculate_vulnerability_index (d : EmployeeData) (stress_result : Option String)
    (burnout_total : Option ℚ) : PhishingResult :=
  let stress_score := stress_map_phishing (stress_result.getD "Medium")
  let burnout_score := burnout_total.getD 50
  let cognitive_load := calculate_cognitive_load
    (d.emails_per_day.getD 75) (d.meetings_per_week.getD 15) (d.task_complexity.getD 5)
  let awareness_vulnerability := estimate_awareness_level
    (d.work_hours_per_week.getD 40) (d.sleep_hours_per_day.getD 7) (d.work_life_balance.getD 5)
  let vi := vulnerability_index_raw d stress_result burnout_total
  let risk_level :=
    if vi < 30 then "Low Vulnerability"
    else if vi < 50 then "Moderate Vulnerability"
    else if vi < 70 then "High Vulnerability"
    else "Critical Vulnerability"
  let color :=
    if vi < 30 then "green"
    else if vi < 50 then "yellow"
    else if vi < 70 then "orange"
    else "red"
  let recommendation :=
    if vi < 30 then "Maintain current security practices"
    else if vi < 50 then "Schedule security awareness refresher"
    else if vi < 70 then "Immediate security training required"
    else "Urgent intervention needed - high phishing risk"
  { vulnerability_index := round2 vi
    risk_level := risk_level
    color := color
    attack_success_probability := round2 (attack_probability_raw vi * 100)
    recommendation := recommendation
    stress_contribution := round2 (stress_score * 0.25)
    burnout_contribution := round2 (burnout_score * 0.30)
    cognitive_load := round2 cognitive_load
    awareness_vulnerability := round2 awareness_vulnerability }

/-- The opening-sentence tier of the deterministic narrative template
(llm_explainer.py, lines 105–111): tier 1 is the urgent opening, tier 2
the "elevated risk … addressed proactively" opening, tier 3 the healthy
opening. -/
def opening_tier (burnout_score : ℚ) (stress_level : String) : Nat :=
  if 70 ≤ burnout_score ∨ stress_level = "Critical" then 1
  else if 50 ≤ burnout_score ∨ stress_level = "High" then 2
  else 3

/-- A row of the historical dataset (`dataset_loader.py`): the six numeric
fields that `find_similar_cases` compares, each possibly absent. -/
structure HistoricalCase where
  work_hours_per_week : Option ℚ
  sleep_hours_per_day : Option ℚ
  meetings_per_week : Option ℚ
  emails_per_day : Option ℚ
  deadline_pressure : Option ℚ
  task_complexity : Option ℚ
deriving DecidableEq

/-- One per-field similarity term (dataset_loader.py, lines 90–93):
`1 - |a - b| / max(a, b, 1)`. -/
def sim_term (a b : ℚ) : ℚ := 1 - |a - b| / max (max a b) 1

/-- The six compared field pairs, in the source's iteration order
(dataset_loader.py, lines 87–88). -/
def field_pairs (e : EmployeeData) (c : HistoricalCase) : List (Option ℚ × Option ℚ) :=
  [(e.work_hours_per_week, c.work_hours_per_week),
   (e.sleep_hours_per_day, c.sleep_hours_per_day),
   (e.meetings_per_week, c.meetings_per_week),
   (e.emails_per_day, c.emails_per_day),
   (e.deadline_pressure, c.deadline_pressure),
   (e.task_complexity, c.task_complexity)]

/-- The similarity terms of the fields present on both sides
(dataset_loader.py, line 89: `if field in employee_data and field in row`). -/
def sim_terms (e : EmployeeData) (c : HistoricalCase) : List ℚ :=
  (field_pairs e c).filterMap fun p =>
    match p.1, p.2 with
    | some a, some b => some (sim_term a b)
    | _, _ => none

/-- The per-case similarity score (dataset_loader.py, lines 82–96):
the average of the present-field terms, or 0 when no field is comparable. -/
def similarity (e : EmployeeData) (c : HistoricalCase) : ℚ :=
  let ts := sim_terms e c
  if ts.length = 0 then 0 else ts.sum / (ts.length : ℚ)

/-- The `(idx, avg_similarity)` pairs accumulated over the corpus in
iteration order, with `i` the index of the first case (the source's loop
starts at index 0). -/
def similarity_scores_from (e : EmployeeData) : Nat → List HistoricalCase → List (Nat × ℚ)
  | _, [] => []
  | i, c :: cs => (i, similarity e c) :: similarity_scores_from e (i + 1) cs

/-- Stable descending insertion: the new element is placed before the
first entry whose score it weakly exceeds.  Because the list is built
right-to-left (`sort_by_score`), the element being inserted always
precedes the others in corpus order, so placing it before equal scores
reproduces the stability of Python's `list.sort`. -/
def insert_by_score (x : Nat × ℚ) : List (Nat × ℚ) → List (Nat × ℚ)
  | [] => [x]
  | y :: ys => if y.2 ≤ x.2 then x :: y :: ys else y :: insert_by_score x ys

/-- Stable sort by similarity, descending — the model of
`similarity_scores.sort(key=lambda x: x[1], reverse=True)`
(dataset_loader.py, line 100). -/
def sort_by_score : List (Nat × ℚ) → List (Nat × ℚ)
  | [] => []
  | x :: xs => insert_by_score x (sort_by_score xs)

/-- The `top_cases = similarity_scores[:n]` selection after sorting
(dataset_loader.py, lines 99–101). -/
def top_cases (e : EmployeeData) (corpus : List HistoricalCase) (n : Nat) : List (Nat × ℚ) :=
  (sort_by_score (similarity_scores_from e 0 corpus)).take n

/-- `DatasetLoader.find_similar_cases` (dataset_loader.py, lines 65–110):
an empty or absent corpus yields `[]`; otherwise the top-n cases paired
with their similarity scores, the index lookup modelling
`self.dataset.iloc[idx]`. -/
def find_similar_cases (e : EmployeeData) (corpus : List HistoricalCase) (n : Nat) :
    List (HistoricalCase × ℚ) :=
  if corpus.length = 0 then []
  else (top_cases e corpus n).map fun p =>
    (corpus.getD p.1 ⟨none, none, none, none, none, none⟩, p.2)

/-! ## Basic bounds helpers -/

lemma clamp_nonneg (x : ℚ) : 0 ≤ min 100 (max 0 x) :=
  le_min (by norm_num) (le_max_left 0 x)

lemma clamp_le_100 (x : ℚ) : min 100 (max 0 x) ≤ 100 := min_le_left _ _

lemma round_mono {x y : ℚ} (h : x ≤ y) : round x ≤ round y := by
  rw [round_eq, round_eq]
  exact Int.floor_le_floor (by linarith)

lemma round2_nonneg {q : ℚ} (h : 0 ≤ q) : 0 ≤ round2 q := by
  unfold round2
  have h1 : (0 : ℤ) ≤ round (q * 100) := by
    have := round_mono (show (0 : ℚ) ≤ q * 100 by nlinarith)
    simpa using this
  positivity

lemma round2_le_int {q : ℚ} {m : ℤ} (h : q ≤ (m : ℚ)) : round2 q ≤ (m : ℚ) := by
  unfold round2
  have h1 : round (q * 100) ≤ ((m * 100 : ℤ) : ℚ) := by
    have h2 := round_mono (show q * 100 ≤ ((m * 100 : ℤ) : ℚ) by push_cast; nlinarith)
    rw [round_intCast] at h2
    exact_mod_cast h2
  rw [div_le_iff₀ (by norm_num : (0:ℚ) < 100)]
  push_cast at h1 ⊢
  linarith

/-! ## C1: the `work_overload` formula -/

/-- The spec's version of `work_overload` (spec §4.2), in which every
clamp — including the email and meeting factors — floors negative values
at 0 before the upper bound.  Kept separate from the source's
`calculate_work_overload` so the two can be compared. -/
def spec_work_overload (work_hours emails_per_day meetings_per_week : ℚ) : ℚ :=
  min 100 (max 0
    (min 100 (max 0 ((work_hours - 40) * 3)) * 0.5 +
     min 100 (max 0 ((emails_per_day - 50) * 0.5)) * 0.25 +
     min 100 (max 0 ((meetings_per_week - 10) * 4)) * 0.25))

/-- C1, counterexample: at `hours = 60, emails = 0, meetings = 10` the
source's `work_overload` is 23.75 while the spec formula with floored
email/meeting factors gives 30 — the email factor's negative value
(−25) leaks into the sum, so the two formulas disagree. -/
theorem work_overload_floor_counterexample :
    calculate_work_overload 60 0 10 = 23.75 ∧
    spec_work_overload 60 0 10 = 30 ∧
    calculate_work_overload 60 0 10 ≠ spec_work_overload 60 0 10 := by
  refine ⟨?_, ?_, ?_⟩ <;> norm_num [calculate_work_overload, spec_work_overload]

/-- C1, amended: `work_overload` = clamp(clamp((hours−40)·3)·0.5 +
min(100, (emails−50)·0.5)·0.25 + min(100, (meetings−10)·4)·0.25): only the
hours factor floors at 0; the email and meeting factors are capped above
at 100 but may be negative (strictly negative whenever emails < 50,
resp. meetings < 10), and only the final sum is floored at 0. -/
theorem work_overload_formula (h e m : ℚ) :
    calculate_work_overload h e m =
      min 100 (max 0
        (min 100 (max 0 ((h - 40) * 3)) * 0.5 +
         min 100 ((e - 50) * 0.5) * 0.25 +
         min 100 ((m - 10) * 4) * 0.25)) ∧
    (e < 50 → min 100 ((e - 50) * 0.5) < 0) ∧
    (m < 10 → min 100 ((m - 10) * 4) < 0) := by
  refine ⟨rfl, fun he => ?_, fun hm => ?_⟩
  · exact lt_of_le_of_lt (min_le_right _ _) (by nlinarith)
  · exact lt_of_le_of_lt (min_le_right _ _) (by nlinarith)

/-- Witness for `work_overload_formula` at `h = 60, e = 0, m = 5`. -/
theorem work_overload_formula_witness :
    calculate_work_overload 60 0 5 =
      min 100 (max 0
        (min 100 (max 0 ((60 - 40) * 3)) * 0.5 +
         min 100 (((0:ℚ) - 50) * 0.5) * 0.25 +
         min 100 (((5:ℚ) - 10) * 4) * 0.25)) ∧
    min 100 (((0:ℚ) - 50) * 0.5) < 0 ∧
    min 100 (((5:ℚ) - 10) * 4) < 0 :=
  ⟨(work_overload_formula 60 0 5).1,
   (work_overload_formula 60 0 5).2.1 (by norm_num),
   (work_overload_formula 60 0 5).2.2 (by norm_num)⟩

/-! ## C2: the emotional-exhaustion regression fixture -/

/-- The regression-fixture metrics
`{hours:55, sleep:6, meetings:25, emails:120, pressure:9, complexity:8,
support:4, balance:3}` with stress category "High". -/
def fixture_data : EmployeeData :=
  ⟨some 55, some 6, some 25, some 120, some 9, some 8, some 4, some 3, some "High"⟩

/-- Evaluation rule for `round2` at a concrete argument:
`round2 q = m / 100` once `m ≤ q·100 + 1/2 < m + 1`. -/
lemma round2_val {q r : ℚ} {m : ℤ} (h1 : (m : ℚ) ≤ q * 100 + 1 / 2)
    (h2 : q * 100 + 1 / 2 < (m : ℚ) + 1) (h3 : (m : ℚ) / 100 = r) :
    round2 q = r := by
  unfold round2
  rw [round_eq, Int.floor_eq_iff.mpr ⟨h1, by exact_mod_cast h2⟩, h3]

/-- The fixture's emotional-exhaustion value inside the engine's result. -/
lemma fixture_emotional_exhaustion_eq :
    (calculate_burnout_score fixture_data).emotional_exhaustion = 59.25 := by
  have hs : stress_map_burnout "High" = 75 := by decide
  have he : calculate_emotional_exhaustion 55 6 75 = 59.25 := by
    norm_num [calculate_emotional_exhaustion]
  show round2 (calculate_emotional_exhaustion 55 6 (stress_map_burnout "High")) = 59.25
  rw [hs, he]
  exact round2_val (m := 5925) (by norm_num) (by norm_num) (by norm_num)

/-- C2, counterexample: on the regression fixture the source's
emotional-exhaustion sub-score is not 89.25. -/
theorem emotional_exhaustion_fixture_counterexample :
    (calculate_burnout_score fixture_data).emotional_exhaustion ≠ 89.25 := by
  rw [fixture_emotional_exhaustion_eq]
  norm_num

/-- C2, amended: on the regression fixture (stress category "High",
mapped to stress score 75) the emotional-exhaustion sub-score is
clamp(75·0.4 + 22.5·0.3 + 75·0.3) = 59.25: the work factor is
clamp((55−40)·5) = 75, not 150 as in the spec's worked arithmetic. -/
theorem emotional_exhaustion_fixture :
    stress_map_burnout "High" = 75 ∧
    calculate_emotional_exhaustion 55 6 75 = 59.25 ∧
    (calculate_burnout_score fixture_data).emotional_exhaustion = 59.25 :=
  ⟨by decide, by norm_num [calculate_emotional_exhaustion], fixture_emotional_exhaustion_eq⟩

/-! ## C3: totality and range of every produced score -/

lemma round2_le_100 {q : ℚ} (h : q ≤ 100) : round2 q ≤ 100 := by
  have h2 := round2_le_int (q := q) (m := 100) (by exact_mod_cast h)
  exact_mod_cast h2

lemma round2_le_95 {q : ℚ} (h : q ≤ 95) : round2 q ≤ 95 := by
  have h2 := round2_le_int (q := q) (m := 95) (by exact_mod_cast h)
  exact_mod_cast h2

lemma emotional_exhaustion_bounds (w s t : ℚ) :
    0 ≤ calculate_emotional_exhaustion w s t ∧ calculate_emotional_exhaustion w s t ≤ 100 :=
  ⟨clamp_nonneg _, clamp_le_100 _⟩

lemma depersonalization_bounds (t w m : ℚ) :
    0 ≤ calculate_depersonalization t w m ∧ calculate_depersonalization t w m ≤ 100 :=
  ⟨clamp_nonneg _, clamp_le_100 _⟩

lemma personal_accomplishment_bounds (t d : ℚ) :
    0 ≤ calculate_personal_accomplishment t d ∧ calculate_personal_accomplishment t d ≤ 100 :=
  ⟨clamp_nonneg _, clamp_le_100 _⟩

lemma work_overload_bounds (w e m : ℚ) :
    0 ≤ calculate_work_overload w e m ∧ calculate_work_overload w e m ≤ 100 :=
  ⟨clamp_nonneg _, clamp_le_100 _⟩

lemma cognitive_load_bounds (e m t : ℚ) :
    0 ≤ calculate_cognitive_load e m t ∧ calculate_cognitive_load e m t ≤ 100 :=
  ⟨clamp_nonneg _, clamp_le_100 _⟩

lemma awareness_level_bounds (w s b : ℚ) :
    0 ≤ estimate_awareness_level w s b ∧ estimate_awareness_level w s b ≤ 100 :=
  ⟨clamp_nonneg _, clamp_le_100 _⟩

lemma stress_map_burnout_bounds (s : String) :
    0 ≤ stress_map_burnout s ∧ stress_map_burnout s ≤ 100 := by
  unfold stress_map_burnout
  split_ifs <;> norm_num

lemma stress_map_phishing_bounds (s : String) :
    0 ≤ stress_map_phishing s ∧ stress_map_phishing s ≤ 100 := by
  unfold stress_map_phishing
  split_ifs <;> norm_num

lemma attack_probability_bounds {vi : ℚ} (h : 0 ≤ vi) :
    0 ≤ attack_probability_raw vi * 100 ∧ attack_probability_raw vi * 100 ≤ 95 := by
  unfold attack_probability_raw
  constructor
  · have h1 : (0 : ℚ) ≤ min 0.95 (0.15 * (1 + vi / 100 * 3)) :=
      le_min (by norm_num) (by nlinarith)
    nlinarith
  · have h1 : min 0.95 (0.15 * (1 + vi / 100 * 3)) ≤ 0.95 := min_le_left _ _
    nlinarith

/-- C3: for every metrics record (absent fields included, defaults
absorbed), every Option-valued stress category, and every upstream
burnout total in [0, 100]: both engines are total functions, every
sub-score and composite score they emit lies in [0, 100], and the
attack-success probability lies in [0, 95]. -/
theorem all_scores_in_range (d : EmployeeData) (s : Option String) (bt : Option ℚ)
    (hb0 : 0 ≤ bt.getD 50) (hb1 : bt.getD 50 ≤ 100) :
    (0 ≤ (calculate_burnout_score d).emotional_exhaustion ∧
       (calculate_burnout_score d).emotional_exhaustion ≤ 100) ∧
    (0 ≤ (calculate_burnout_score d).depersonalization ∧
       (calculate_burnout_score d).depersonalization ≤ 100) ∧
    (0 ≤ (calculate_burnout_score d).personal_accomplishment ∧
       (calculate_burnout_score d).personal_accomplishment ≤ 100) ∧
    (0 ≤ (calculate_burnout_score d).work_overload ∧
       (calculate_burnout_score d).work_overload ≤ 100) ∧
    (0 ≤ (calculate_burnout_score d).total_score ∧
       (calculate_burnout_score d).total_score ≤ 100) ∧
    (0 ≤ (calculate_vulnerability_index d s bt).vulnerability_index ∧
       (calculate_vulnerability_index d s bt).vulnerability_index ≤ 100) ∧
    (0 ≤ (calculate_vulnerability_index d s bt).cognitive_load ∧
       (calculate_vulnerability_index d s bt).cognitive_load ≤ 100) ∧
    (0 ≤ (calculate_vulnerability_index d s bt).awareness_vulnerability ∧
       (calculate_vulnerability_index d s bt).awareness_vulnerability ≤ 100) ∧
    (0 ≤ (calculate_vulnerability_index d s bt).stress_contribution ∧
       (calculate_vulnerability_index d s bt).stress_contribution ≤ 100) ∧
    (0 ≤ (calculate_vulnerability_index d s bt).burnout_contribution ∧
       (calculate_vulnerability_index d s bt).burnout_contribution ≤ 100) ∧
    (0 ≤ (calculate_vulnerability_index d s bt).attack_success_probability ∧
       (calculate_vulnerability_index d s bt).attack_success_probability ≤ 95) := by
  have hee := emotional_exhaustion_bounds (d.work_hours_per_week.getD 40)
    (d.sleep_hours_per_day.getD 7) (stress_map_burnout (d.stress_level.getD "Medium"))
  have hdep := depersonalization_bounds (d.team_support.getD 5)
    (d.work_life_balance.getD 5) (d.meetings_per_week.getD 15)
  have hpa := personal_accomplishment_bounds (d.task_complexity.getD 5)
    (d.deadline_pressure.getD 5)
  have hwo := work_overload_bounds (d.work_hours_per_week.getD 40)
    (d.emails_per_day.getD 75) (d.meetings_per_week.getD 15)
  have hcl := cognitive_load_bounds (d.emails_per_day.getD 75)
    (d.meetings_per_week.getD 15) (d.task_complexity.getD 5)
  have hav := awareness_level_bounds (d.work_hours_per_week.getD 40)
    (d.sleep_hours_per_day.getD 7) (d.work_life_balance.getD 5)
  have hsp := stress_map_phishing_bounds (s.getD "Medium")
  have hvi : 0 ≤ vulnerability_index_raw d s bt ∧ vulnerability_index_raw d s bt ≤ 100 := by
    unfold vulnerability_index_raw
    constructor <;> [nlinarith [hsp.1, hb0, hcl.1, hav.1]; nlinarith [hsp.2, hb1, hcl.2, hav.2]]
  have hasp := attack_probability_bounds hvi.1
  refine ⟨⟨round2_nonneg hee.1, round2_le_100 hee.2⟩,
    ⟨round2_nonneg hdep.1, round2_le_100 hdep.2⟩,
    ⟨round2_nonneg hpa.1, round2_le_100 hpa.2⟩,
    ⟨round2_nonneg hwo.1, round2_le_100 hwo.2⟩,
    ⟨round2_nonneg (by nlinarith [hee.1, hdep.1, hpa.1, hwo.1]),
     round2_le_100 (by nlinarith [hee.2, hdep.2, hpa.2, hwo.2])⟩,
    ⟨round2_nonneg hvi.1, round2_le_100 hvi.2⟩,
    ⟨round2_nonneg hcl.1, round2_le_100 hcl.2⟩,
    ⟨round2_nonneg hav.1, round2_le_100 hav.2⟩,
    ⟨round2_nonneg (by nlinarith [hsp.1]), round2_le_100 (by nlinarith [hsp.2])⟩,
    ⟨round2_nonneg (by nlinarith [hb0]), round2_le_100 (by nlinarith [hb1])⟩,
    ⟨round2_nonneg hasp.1, round2_le_95 hasp.2⟩⟩

/-- The all-absent metrics record (an empty `employee_data` dict). -/
def empty_data : EmployeeData := ⟨none, none, none, none, none, none, none, none, none⟩

/-- Witness for `all_scores_in_range` at the empty record, absent stress
category and absent burnout total (so the defaulted total 50 satisfies
the range hypotheses). -/
theorem all_scores_in_range_witness :
    (0 ≤ (calculate_burnout_score empty_data).emotional_exhaustion ∧
       (calculate_burnout_score empty_data).emotional_exhaustion ≤ 100) ∧
    (0 ≤ (calculate_burnout_score empty_data).depersonalization ∧
       (calculate_burnout_score empty_data).depersonalization ≤ 100) ∧
    (0 ≤ (calculate_burnout_score empty_data).personal_accomplishment ∧
       (calculate_burnout_score empty_data).personal_accomplishment ≤ 100) ∧
    (0 ≤ (calculate_burnout_score empty_data).work_overload ∧
       (calculate_burnout_score empty_data).work_overload ≤ 100) ∧
    (0 ≤ (calculate_burnout_score empty_data).total_score ∧
       (calculate_burnout_score empty_data).total_score ≤ 100) ∧
    (0 ≤ (calculate_vulnerability_index empty_data none none).vulnerability_index ∧
       (calculate_vulnerability_index empty_data none none).vulnerability_index ≤ 100) ∧
    (0 ≤ (calculate_vulnerability_index empty_data none none).cognitive_load ∧
       (calculate_vulnerability_index empty_data none none).cognitive_load ≤ 100) ∧
    (0 ≤ (calculate_vulnerability_index empty_data none none).awareness_vulnerability ∧
       (calculate_vulnerability_index empty_data none none).awareness_vulnerability ≤ 100) ∧
    (0 ≤ (calculate_vulnerability_index empty_data none none).stress_contribution ∧
       (calculate_vulnerability_index empty_data none none).stress_contribution ≤ 100) ∧
    (0 ≤ (calculate_vulnerability_index empty_data none none).burnout_contribution ∧
       (calculate_vulnerability_index empty_data none none).burnout_contribution ≤ 100) ∧
    (0 ≤ (calculate_vulnerability_index empty_data none none).attack_success_probability ∧
       (calculate_vulnerability_index empty_data none none).attack_success_probability ≤ 95) :=
  all_scores_in_range empty_data none none (by norm_num) (by norm_num)

/-! ## C4: the attack-success probability formula -/

lemma attack_probability_pct (v : ℚ) :
    attack_probability_raw v * 100 = min 95 (15 * (1 + v / 100 * 3)) := by
  unfold attack_probability_raw
  rcases le_total (0.95 : ℚ) (0.15 * (1 + v / 100 * 3)) with h | h
  · rw [min_eq_left h, min_eq_left (by nlinarith)]
    norm_num
  · rw [min_eq_right h, min_eq_right (by nlinarith)]
    ring

/-- C4: the attack-success probability is min(95, 15·(1 + vi/100·3)) as a
percentage: a baseline of 15 at vi = 0, scaled by the multiplier 3 up to
the cap 95; the emitted field is exactly this quantity (after the
engine's two-decimal display rounding of the percentage). -/
theorem attack_success_probability_formula :
    (∀ (d : EmployeeData) (s : Option String) (bt : Option ℚ),
        (calculate_vulnerability_index d s bt).attack_success_probability =
          round2 (min 95 (15 * (1 + vulnerability_index_raw d s bt / 100 * 3)))) ∧
    (∀ v : ℚ, attack_probability_raw v * 100 = min 95 (15 * (1 + v / 100 * 3))) ∧
    attack_probability_raw 0 * 100 = 15 := by
  refine ⟨fun d s bt => ?_, attack_probability_pct, ?_⟩
  · show round2 (attack_probability_raw (vulnerability_index_raw d s bt) * 100) = _
    rw [attack_probability_pct]
  · rw [attack_probability_pct]
    norm_num

/-! ## C7: behaviour on missing fields; determinism -/

/-- The record with every field substituted by the source's `dict.get`
default (hours 40, sleep 7, meetings 15, emails 75, pressure 5,
complexity 5, support 5, balance 5, stress "Medium"). -/
def fill_defaults (d : EmployeeData) : EmployeeData :=
  ⟨some (d.work_hours_per_week.getD 40), some (d.sleep_hours_per_day.getD 7),
   some (d.meetings_per_week.getD 15), some (d.emails_per_day.getD 75),
   some (d.deadline_pressure.getD 5), some (d.task_complexity.getD 5),
   some (d.team_support.getD 5), some (d.work_life_balance.getD 5),
   some (d.stress_level.getD "Medium")⟩

/-- C7, counterexample: scoring the record with every required field
missing does not fail — it succeeds with the defaults, yielding total
22.66 and level "Low Risk" (so a missing field is not rejected). -/
theorem missing_fields_scored_counterexample :
    (calculate_burnout_score empty_data).total_score = 22.66 ∧
    (calculate_burnout_score empty_data).level = "Low Risk" := by
  constructor
  · have hmed : stress_map_burnout "Medium" = 50 := by decide
    have hee : calculate_emotional_exhaustion 40 7 (stress_map_burnout "Medium") = 17.25 := by
      rw [hmed]
      norm_num [calculate_emotional_exhaustion]
    have hdep : calculate_depersonalization 5 5 15 = 43 := by
      norm_num [calculate_depersonalization]
    have hpa : calculate_personal_accomplishment 5 5 = 21.25 := by
      norm_num [calculate_personal_accomplishment]
    have hwo : calculate_work_overload 40 75 15 = 8.125 := by
      norm_num [calculate_work_overload]
    show round2 (calculate_emotional_exhaustion 40 7 (stress_map_burnout "Medium") * 0.35 +
      calculate_depersonalization 5 5 15 * 0.25 +
      calculate_personal_accomplishment 5 5 * 0.20 +
      calculate_work_overload 40 75 15 * 0.20) = 22.66
    rw [hee, hdep, hpa, hwo]
    exact round2_val (m := 2266) (by norm_num) (by norm_num) (by norm_num)
  · have hmed : stress_map_burnout "Medium" = 50 := by decide
    have hee : calculate_emotional_exhaustion 40 7 (stress_map_burnout "Medium") = 17.25 := by
      rw [hmed]
      norm_num [calculate_emotional_exhaustion]
    have hdep : calculate_depersonalization 5 5 15 = 43 := by
      norm_num [calculate_depersonalization]
    have hpa : calculate_personal_accomplishment 5 5 = 21.25 := by
      norm_num [calculate_personal_accomplishment]
    have hwo : calculate_work_overload 40 75 15 = 8.125 := by
      norm_num [calculate_work_overload]
    show (if calculate_emotional_exhaustion 40 7 (stress_map_burnout "Medium") * 0.35 +
        calculate_depersonalization 5 5 15 * 0.25 +
        calculate_personal_accomplishment 5 5 * 0.20 +
        calculate_work_overload 40 75 15 * 0.20 < 30 then "Low Risk"
      else if _ < 50 then "Moderate Risk"
      else if _ < 70 then "High Risk"
      else "Critical Risk") = "Low Risk"
    rw [hee, hdep, hpa, hwo]
    norm_num

/-- C7, amended: the scorer is a deterministic total function — it has no
rejection path.  A missing metric field is silently substituted by its
default rather than rejected: scoring any record gives exactly the result
of scoring the fully-defaulted record. -/
theorem missing_fields_use_defaults (d : EmployeeData) :
    calculate_burnout_score d = calculate_burnout_score (fill_defaults d) := rfl

/-! ## C8: monotonicity in work hours -/

/-- C8: holding every other metric fixed, increasing `work_hours_per_week`
never decreases the `work_overload` sub-score nor the
`emotional_exhaustion` sub-score. -/
theorem monotone_in_work_hours (h1 h2 sleep stress emails meetings : ℚ)
    (hh : h1 ≤ h2) :
    calculate_work_overload h1 emails meetings ≤ calculate_work_overload h2 emails meetings ∧
    calculate_emotional_exhaustion h1 sleep stress ≤
      calculate_emotional_exhaustion h2 sleep stress := by
  constructor
  · simp only [calculate_work_overload]
    gcongr
  · simp only [calculate_emotional_exhaustion]
    gcongr

/-- Witness for `monotone_in_work_hours` at 45 ≤ 60 hours. -/
theorem monotone_in_work_hours_witness :
    calculate_work_overload 45 80 12 ≤ calculate_work_overload 60 80 12 ∧
    calculate_emotional_exhaustion 45 6 75 ≤ calculate_emotional_exhaustion 60 6 75 :=
  monotone_in_work_hours 45 60 6 75 80 12 (by norm_num)

/-! ## C9: the narrative's opening tiers -/

/-- C9: the opening sentence is selected by three mutually exclusive
tiers — tier 1 iff burnout ≥ 70 or stress "Critical"; tier 2 iff not
tier 1 and burnout ≥ 50 or stress "High"; tier 3 (healthy) otherwise —
and at burnout 68 with stress "High" the middle tier is selected. -/
theorem opening_tier_selection (b : ℚ) (s : String) :
    (opening_tier b s = 1 ↔ (70 ≤ b ∨ s = "Critical")) ∧
    (opening_tier b s = 2 ↔ (¬(70 ≤ b ∨ s = "Critical") ∧ (50 ≤ b ∨ s = "High"))) ∧
    (opening_tier b s = 3 ↔ (¬(70 ≤ b ∨ s = "Critical") ∧ ¬(50 ≤ b ∨ s = "High"))) ∧
    opening_tier 68 "High" = 2 := by
  refine ⟨?_, ?_, ?_, by decide⟩ <;>
    · unfold opening_tier
      split_ifs with hA hB <;> simp_all

/-- Witness for `opening_tier_selection` at the scenario
`burnout = 68, stress = "High"`. -/
theorem opening_tier_selection_witness :
    (opening_tier 68 "High" = 2 ↔
      (¬(70 ≤ (68:ℚ) ∨ "High" = "Critical") ∧ (50 ≤ (68:ℚ) ∨ "High" = "High"))) ∧
    opening_tier 68 "High" = 2 :=
  ⟨(opening_tier_selection 68 "High").2.1, (opening_tier_selection 68 "High").2.2.2⟩

/-! ## C10: unknown stress categories -/

/-- C10: a stress category outside {Low, Medium, High, Critical} raises
nothing: the burnout map yields 50 and the phishing map also yields 50 —
a value that no legitimate category produces in the phishing map
{Low 20, Medium 45, High 70, Critical 95}; an absent category is treated
as "Medium" by the burnout stage (also 50 there). -/
theorem unknown_stress_category (s : String)
    (hl : s ≠ "Low") (hm : s ≠ "Medium") (hh : s ≠ "High") (hc : s ≠ "Critical") :
    stress_map_burnout s = 50 ∧
    stress_map_phishing s = 50 ∧
    stress_map_burnout ((none : Option String).getD "Medium") = 50 ∧
    stress_map_phishing "Low" ≠ 50 ∧ stress_map_phishing "Medium" ≠ 50 ∧
    stress_map_phishing "High" ≠ 50 ∧ stress_map_phishing "Critical" ≠ 50 := by
  refine ⟨?_, ?_, by decide, by decide, by decide, by decide, by decide⟩
  · unfold stress_map_burnout
    rw [if_neg hl, if_neg hm, if_neg hh, if_neg hc]
  · unfold stress_map_phishing
    rw [if_neg hl, if_neg hm, if_neg hh, if_neg hc]

/-- Witness for `unknown_stress_category` at the category "Extreme". -/
theorem unknown_stress_category_witness :
    stress_map_burnout "Extreme" = 50 ∧
    stress_map_phishing "Extreme" = 50 ∧
    stress_map_burnout ((none : Option String).getD "Medium") = 50 ∧
    stress_map_phishing "Low" ≠ 50 ∧ stress_map_phishing "Medium" ≠ 50 ∧
    stress_map_phishing "High" ≠ 50 ∧ stress_map_phishing "Critical" ≠ 50 :=
  unknown_stress_category "Extreme" (by decide) (by decide) (by decide) (by decide)

/-! ## C5: range of the similarity score -/

lemma sim_term_self (a : ℚ) : sim_term a a = 1 := by
  simp [sim_term]

lemma sim_term_bounds {a b : ℚ} (ha : 0 ≤ a) (hb : 0 ≤ b) :
    0 ≤ sim_term a b ∧ sim_term a b ≤ 1 := by
  have hM : (1 : ℚ) ≤ max (max a b) 1 := le_max_right _ _
  have hMpos : (0 : ℚ) < max (max a b) 1 := lt_of_lt_of_le one_pos hM
  constructor
  · have habs : |a - b| ≤ max a b := by
      rcases le_total a b with h | h
      · rw [abs_sub_comm, abs_of_nonneg (by linarith)]
        have := le_max_right a b
        linarith
      · rw [abs_of_nonneg (by linarith)]
        have := le_max_left a b
        linarith
    have hdiv : |a - b| / max (max a b) 1 ≤ 1 :=
      (div_le_one hMpos).mpr (le_trans habs (le_max_left _ _))
    unfold sim_term
    linarith
  · have hdiv : 0 ≤ |a - b| / max (max a b) 1 := div_nonneg (abs_nonneg _) hMpos.le
    unfold sim_term
    linarith

lemma list_sum_unit_bounds :
    ∀ l : List ℚ, (∀ x ∈ l, 0 ≤ x ∧ x ≤ 1) → 0 ≤ l.sum ∧ l.sum ≤ (l.length : ℚ) := by
  intro l
  induction l with
  | nil => simp
  | cons x xs ih =>
    intro h
    have hx := h x (List.mem_cons_self x xs)
    have hxs := ih fun y hy => h y (List.mem_cons_of_mem x hy)
    simp only [List.sum_cons, List.length_cons]
    push_cast
    constructor <;> linarith [hx.1, hx.2, hxs.1, hxs.2]

/-- All compared field values on both sides are nonnegative (the declared
ranges of MetricsRecord are all nonnegative). -/
def nonneg_fields (e : EmployeeData) (c : HistoricalCase) : Prop :=
  ∀ p ∈ field_pairs e c,
    (∀ a : ℚ, p.1 = some a → 0 ≤ a) ∧ (∀ b : ℚ, p.2 = some b → 0 ≤ b)

lemma sim_terms_unit {e : EmployeeData} {c : HistoricalCase} (h : nonneg_fields e c) :
    ∀ t ∈ sim_terms e c, 0 ≤ t ∧ t ≤ 1 := by
  intro t ht
  unfold sim_terms at ht
  rw [List.mem_filterMap] at ht
  obtain ⟨⟨o1, o2⟩, hp, hf⟩ := ht
  have hbound := h (o1, o2) hp
  cases o1 with
  | none => simp at hf
  | some a =>
    cases o2 with
    | none => simp at hf
    | some b =>
      simp only [Option.some.injEq] at hf
      rw [← hf]
      exact sim_term_bounds (hbound.1 a rfl) (hbound.2 b rfl)

/-- C5, amended: every similarity score computed from nonnegative field
values lies in [0, 1] (negative inputs are the only way out of the
interval), and the similarity against a historical case whose six
compared fields are present and identical to the record's equals 1
exactly. -/
theorem similarity_unit_range :
    (∀ (e : EmployeeData) (c : HistoricalCase), nonneg_fields e c →
        0 ≤ similarity e c ∧ similarity e c ≤ 1) ∧
    (∀ (e : EmployeeData) (c : HistoricalCase) (w sl m em dp tc : ℚ),
        e.work_hours_per_week = some w → c.work_hours_per_week = some w →
        e.sleep_hours_per_day = some sl → c.sleep_hours_per_day = some sl →
        e.meetings_per_week = some m → c.meetings_per_week = some m →
        e.emails_per_day = some em → c.emails_per_day = some em →
        e.deadline_pressure = some dp → c.deadline_pressure = some dp →
        e.task_complexity = some tc → c.task_complexity = some tc →
        similarity e c = 1) := by
  constructor
  · intro e c h
    unfold similarity
    by_cases hl : (sim_terms e c).length = 0
    · simp [hl]
    · have hb := list_sum_unit_bounds (sim_terms e c) (sim_terms_unit h)
      have hlen : 0 < ((sim_terms e c).length : ℚ) := by
        exact_mod_cast Nat.pos_of_ne_zero hl
      simp only [hl, if_false]
      exact ⟨div_nonneg hb.1 hlen.le, (div_le_one hlen).mpr hb.2⟩
  · intro e c w sl m em dp tc hw1 hw2 hs1 hs2 hm1 hm2 he1 he2 hd1 hd2 ht1 ht2
    simp [similarity, sim_terms, field_pairs, hw1, hw2, hs1, hs2, hm1, hm2,
      he1, he2, hd1, hd2, ht1, ht2, sim_term_self]
    norm_num

/-- A historical case with the regression fixture's six compared values. -/
def identical_case : HistoricalCase := ⟨some 55, some 6, some 25, some 120, some 9, some 8⟩

/-- Witness for `similarity_unit_range`: the fixture record against
`identical_case` is within [0, 1] and, being identical on all six
compared fields, scores exactly 1. -/
theorem similarity_unit_range_witness :
    (0 ≤ similarity fixture_data identical_case ∧
       similarity fixture_data identical_case ≤ 1) ∧
    similarity fixture_data identical_case = 1 :=
  ⟨similarity_unit_range.1 fixture_data identical_case (by
      intro p hp
      fin_cases hp <;> constructor <;> intro x hx <;>
        · injection hx with hx
          rw [← hx]
          norm_num),
   similarity_unit_range.2 fixture_data identical_case 55 6 25 120 9 8
     rfl rfl rfl rfl rfl rfl rfl rfl rfl rfl rfl rfl⟩

/-- C5, counterexample: the similarity of a record whose fields are all
−10 against a case whose fields are all 10 is −1, outside [0, 1] — the
claim's range does not hold for every numeric record, since MetricsRecord
accepts out-of-declared-range (negative) values. -/
theorem similarity_negative_counterexample :
    similarity
        ⟨some (-10), some (-10), some (-10), some (-10), some (-10), some (-10),
          none, none, none⟩
        ⟨some 10, some 10, some 10, some 10, some 10, some 10⟩ = -1 ∧
    similarity
        ⟨some (-10), some (-10), some (-10), some (-10), some (-10), some (-10),
          none, none, none⟩
        ⟨some 10, some 10, some 10, some 10, some 10, some 10⟩ < 0 := by
  constructor <;>
    norm_num [similarity, sim_terms, field_pairs, sim_term, List.filterMap]

/-! ## C6: ordering, stability and length of the similarity search -/

/-- `a` precedes `b` in the sorted output: either a strictly larger
similarity, or the same similarity and an earlier corpus position (the
stable tie-break). -/
def rank_before (a b : Nat × ℚ) : Prop :=
  b.2 < a.2 ∨ (a.2 = b.2 ∧ a.1 < b.1)

lemma insert_by_score_mem {x z : Nat × ℚ} :
    ∀ {l : List (Nat × ℚ)}, z ∈ insert_by_score x l ↔ z = x ∨ z ∈ l := by
  intro l
  induction l with
  | nil => simp [insert_by_score]
  | cons y ys ih =>
    unfold insert_by_score
    by_cases h : y.2 ≤ x.2
    · rw [if_pos h]
      simp [List.mem_cons]
    · rw [if_neg h]
      simp only [List.mem_cons, ih]
      tauto

lemma sort_by_score_mem {z : Nat × ℚ} :
    ∀ {l : List (Nat × ℚ)}, z ∈ sort_by_score l ↔ z ∈ l := by
  intro l
  induction l with
  | nil => simp [sort_by_score]
  | cons x xs ih =>
    simp only [sort_by_score, insert_by_score_mem, ih, List.mem_cons]

lemma insert_by_score_pairwise {x : Nat × ℚ} :
    ∀ {l : List (Nat × ℚ)}, (∀ y ∈ l, x.1 < y.1) → l.Pairwise rank_before →
      (insert_by_score x l).Pairwise rank_before := by
  intro l
  induction l with
  | nil =>
    intro _ _
    simp [insert_by_score]
  | cons y ys ih =>
    intro hx hl
    rw [List.pairwise_cons] at hl
    obtain ⟨hy, hys⟩ := hl
    unfold insert_by_score
    by_cases h : y.2 ≤ x.2
    · rw [if_pos h, List.pairwise_cons]
      refine ⟨fun z hz => ?_, List.pairwise_cons.mpr ⟨hy, hys⟩⟩
      have hz2 : z.2 ≤ x.2 := by
        rcases List.mem_cons.mp hz with rfl | hz'
        · exact h
        · rcases hy z hz' with h1 | h1
          · linarith
          · rw [← h1.1]
            exact h
      rcases lt_or_eq_of_le hz2 with hlt | heq
      · exact Or.inl hlt
      · exact Or.inr ⟨heq.symm, hx z hz⟩
    · rw [if_neg h, List.pairwise_cons]
      push_neg at h
      refine ⟨fun z hz => ?_, ih (fun y' hy' => hx y' (List.mem_cons_of_mem y hy')) hys⟩
      rcases insert_by_score_mem.mp hz with rfl | hz'
      · exact Or.inl h
      · exact hy z hz'

lemma sort_by_score_pairwise :
    ∀ {l : List (Nat × ℚ)}, l.Pairwise (fun a b => a.1 < b.1) →
      (sort_by_score l).Pairwise rank_before := by
  intro l
  induction l with
  | nil =>
    intro _
    simp [sort_by_score]
  | cons x xs ih =>
    intro h
    rw [List.pairwise_cons] at h
    exact insert_by_score_pairwise
      (fun y hy => h.1 y (sort_by_score_mem.mp hy)) (ih h.2)

lemma similarity_scores_from_ge {e : EmployeeData} :
    ∀ {cs : List HistoricalCase} {i : Nat} {p : Nat × ℚ},
      p ∈ similarity_scores_from e i cs → i ≤ p.1 := by
  intro cs
  induction cs with
  | nil => simp [similarity_scores_from]
  | cons c cs ih =>
    intro i p hp
    rcases List.mem_cons.mp hp with rfl | hp'
    · exact le_refl _
    · exact le_trans (Nat.le_succ i) (ih hp')

lemma similarity_scores_from_pairwise (e : EmployeeData) :
    ∀ (cs : List HistoricalCase) (i : Nat),
      (similarity_scores_from e i cs).Pairwise (fun a b => a.1 < b.1) := by
  intro cs
  induction cs with
  | nil =>
    intro i
    simp [similarity_scores_from]
  | cons c cs ih =>
    intro i
    simp only [similarity_scores_from]
    rw [List.pairwise_cons]
    exact ⟨fun p hp => lt_of_lt_of_le (Nat.lt_succ_self i) (similarity_scores_from_ge hp),
      ih (i + 1)⟩

lemma insert_by_score_length (x : Nat × ℚ) :
    ∀ l : List (Nat × ℚ), (insert_by_score x l).length = l.length + 1 := by
  intro l
  induction l with
  | nil => rfl
  | cons y ys ih =>
    unfold insert_by_score
    by_cases h : y.2 ≤ x.2
    · rw [if_pos h]
      rfl
    · rw [if_neg h]
      simp [ih]

lemma sort_by_score_length :
    ∀ l : List (Nat × ℚ), (sort_by_score l).length = l.length := by
  intro l
  induction l with
  | nil => rfl
  | cons x xs ih =>
    simp [sort_by_score, insert_by_score_length, ih]

lemma similarity_scores_from_length (e : EmployeeData) :
    ∀ (cs : List HistoricalCase) (i : Nat),
      (similarity_scores_from e i cs).length = cs.length := by
  intro cs
  induction cs with
  | nil =>
    intro i
    rfl
  | cons c cs ih =>
    intro i
    simp [similarity_scores_from, ih]

/-- C6: the similarity search returns exactly `min n (corpus size)`
results (fewer than `n` only when the corpus is smaller), the selected
`(index, score)` pairs are ordered by strictly descending score with ties
in corpus order (stability), the returned scores are non-increasing, and
an empty corpus yields the empty result rather than failing. -/
theorem find_similar_cases_sorted (e : EmployeeData) (corpus : List HistoricalCase) (n : Nat) :
    (find_similar_cases e corpus n).length = min n corpus.length ∧
    (top_cases e corpus n).Pairwise rank_before ∧
    ((find_similar_cases e corpus n).map Prod.snd).Pairwise (fun a b => b ≤ a) ∧
    find_similar_cases e [] n = [] := by
  have htop : (top_cases e corpus n).Pairwise rank_before :=
    List.Pairwise.sublist (List.take_sublist n _)
      (sort_by_score_pairwise (similarity_scores_from_pairwise e corpus 0))
  refine ⟨?_, htop, ?_, ?_⟩
  · cases corpus with
    | nil => simp [find_similar_cases]
    | cons c cs =>
      simp [find_similar_cases, top_cases, sort_by_score_length,
        similarity_scores_from_length]
  · cases corpus with
    | nil => simp [find_similar_cases]
    | cons c cs =>
      have hmap : ((find_similar_cases e (c :: cs) n).map Prod.snd) =
          (top_cases e (c :: cs) n).map Prod.snd := by
        simp [find_similar_cases, List.map_map]
      rw [hmap]
      refine List.Pairwise.map Prod.snd (fun a b hab => ?_) htop
      rcases hab with h1 | h1
      · exact h1.le
      · exact le_of_eq h1.1.symm
  · rfl
